import Mathlib

/-!
Verification of the ADVI core (src/ajax/advi.py) against its specification.

Shallow embedding conventions:
* Python dicts of named parameters are association lists `List (String × α)`;
  key-set equality of dict views is `keysMatch`.
* Array leaves are `List ℚ`; PRNG seeds are `ℕ`.
* The external distribution / bijector / PRNG libraries (out of scope per the
  spec, interface-only) are modelled by concrete executable functions exposing
  exactly the interface the spec requires (`sample`, `log_prob`, forward and
  inverse transforms, deterministic seed splitting).
* The helpers imported from the repository modules base.py and utils.py are
  not present under src/; each is modelled from the spec and marked as such.
* Each `assert` in `ADVI.__init__` is mapped to the error name the spec's
  taxonomy gives it (`KeyMismatchError`, `ZeroBatchViolation`,
  `RankSpecificationError`); the constructor is embedded as a function into
  `Except ADVIError ADVI`.
* Attributes that `ADVI.__init__` leaves undefined for an unrecognized
  `vi_type` are `Option` fields; methods that would hit an `AttributeError`
  on such an instance return `none`.
-/

abbrev Key := String

abbrev Arr := List ℚ

abbrev PTree := List (Key × Arr)

/-- Interface model of an external distribution object: batch-shape
introspection, event length, and log-density. -/
structure DistObj where
  batch_shape : List ℕ
  event_len : ℕ
  log_prob : Arr → ℚ

/-- Interface model of an external bijector: forward transform, inverse
transform, and forward log-det-Jacobian. -/
structure Bij where
  forward : Arr → Arr
  inverse : Arr → Arr
  fwd_log_det : Arr → ℚ

abbrev DistMap := List (Key × DistObj)

abbrev BijMap := List (Key × Bij)

/-- Raw (pre-bijector) parameters of the surrogate: one array per raw
parameter, in canonical order. -/
abbrev RawParams := List Arr

/-- Shapes (lengths) of the surrogate's raw parameter arrays. -/
abbrev RawShapes := List ℕ

/-- One transform per raw surrogate parameter, applied positionally. -/
abbrev ParamsBij := List (Arr → Arr)

/-- The `Params` tree: a dict holding the surrogate's raw parameters. -/
abbrev Params := List (Key × RawParams)

def keySet (m : List (Key × α)) : List Key := m.map Prod.fst

/-- Python dict-view equality `a.keys() == b.keys()` compares key SETS. -/
def keysMatch (p : DistMap) (b : BijMap) : Bool :=
  (keySet p).all (fun k => (keySet b).contains k) &&
    (keySet b).all (fun k => (keySet p).contains k)

def lookup (m : List (Key × α)) (k : Key) : Option α :=
  (m.find? (fun kv => kv.1 == k)).map Prod.snd

/-- Modelled from the spec (base.py is missing from src/):
`inverse_transform_dist` builds the ApproxNormalPrior — for each key `k` the
pushforward of `prior[k]` through `bijector[k]⁻¹`, whose log density at `y` is
the prior log density at `forward y` plus the forward log-det-Jacobian. -/
def inverse_transform_dist (prior : DistMap) (bijector : BijMap) : DistMap :=
  prior.map (fun kd =>
    match lookup bijector kd.1 with
    | some b =>
        (kd.1, { batch_shape := kd.2.batch_shape, event_len := kd.2.event_len,
                 log_prob := fun y => kd.2.log_prob (b.forward y) + b.fwd_log_det y })
    | none => kd)

/-- Modelled from the spec (base.py is missing from src/): `log_prob_dist` is
the sum over keys of each distribution's log density at the matching leaf. -/
def log_prob_dist (d : DistMap) (t : PTree) : ℚ :=
  (d.map (fun kd => kd.2.log_prob ((lookup t kd.1).getD []))).sum

/-- Modelled from the spec (base.py is missing from src/): `transform_tree`
maps each leaf through its key's bijector forward transform. -/
def transform_tree (t : PTree) (bijector : BijMap) : PTree :=
  t.map (fun kv =>
    match lookup bijector kv.1 with
    | some b => (kv.1, b.forward kv.2)
    | none => kv)

/-- Surrogate posterior distribution over the flat space, determined by its
realized (post-bijector) parameters. -/
structure SurrogateDist where
  realized : RawParams

/-- Interface model of the external library's reparameterized sampling: a
deterministic function of the realized parameters and the seed. -/
def SurrogateDist.sample (d : SurrogateDist) (seed : ℕ) : Arr :=
  (d.realized.headD []).map (fun x => x + ((seed % 13 : ℕ) : ℚ) - 6)

/-- Interface model of the external library's log-density of the surrogate. -/
def SurrogateDist.log_prob (d : SurrogateDist) (v : Arr) : ℚ :=
  -((v.zip (d.realized.headD [])).map (fun p => (p.1 - p.2) ^ 2)).sum

/-- Modelled from the spec (base.py is missing from src/):
`transform_dist_params` applies the posterior-params bijector positionally to
the raw parameters, realizing the surrogate distribution. -/
def transform_dist_params (raw : RawParams) (bijector : ParamsBij) : SurrogateDist :=
  { realized := (bijector.zip raw).map (fun fb => fb.1 fb.2) }

/-- Total flat dimensionality of the unconstrained latent vector. -/
def flatDim (d : DistMap) : ℕ := (d.map (fun kd => kd.2.event_len)).sum

/-- Modelled from the spec (base.py is missing from src/): the unravel
function derived from the ApproxNormalPrior structure — split the flat vector
by each key's event length, in canonical order. -/
def unravel (d : DistMap) (v : Arr) : PTree :=
  (d.foldl
    (fun acc kd =>
      (acc.1 ++ [(kd.1, acc.2.take kd.2.event_len)], acc.2.drop kd.2.event_len))
    (([] : PTree), v)).1

def identity_map (v : Arr) : Arr := v

/-- Modelled from the spec: positivity-enforcing default transform standing
for the external exp/softplus bijector on scale parameters. -/
def positive_map (v : Arr) : Arr := v.map (fun x => x ^ 2 + 1)

/-- Modelled from the spec (base.py is missing from src/): mean-field builder —
raw params (location, raw scale), the unravel function, and default bijectors
(identity, positivity map) unless overridden. -/
def get_mean_field (anp : DistMap) (opb : Option ParamsBij) :
    RawShapes × (Arr → PTree) × ParamsBij :=
  ([flatDim anp, flatDim anp], unravel anp, opb.getD [identity_map, positive_map])

/-- Modelled from the spec (base.py is missing from src/): full-rank builder —
raw params (location, unconstrained lower-triangular Cholesky factor), the
unravel function, and default bijectors unless overridden. -/
def get_full_rank (anp : DistMap) (opb : Option ParamsBij) :
    RawShapes × (Arr → PTree) × ParamsBij :=
  ([flatDim anp, flatDim anp * (flatDim anp + 1) / 2], unravel anp,
    opb.getD [identity_map, positive_map])

/-- Modelled from the spec (base.py is missing from src/): low-rank builder —
raw params (location, diagonal scale raw, low-rank factor of shape
`[dim, rank]`), the unravel function, and default bijectors unless
overridden. -/
def get_low_rank (anp : DistMap) (rank : ℕ) (opb : Option ParamsBij) :
    RawShapes × (Arr → PTree) × ParamsBij :=
  ([flatDim anp, flatDim anp, flatDim anp * rank], unravel anp,
    opb.getD [identity_map, positive_map, identity_map])

/-- Modelled from the spec (utils.py is missing from src/):
`initialize_params` — each raw parameter leaf independently initialized by the
initializer from a per-leaf sub-seed and the leaf's shape. -/
def initialize_params (shapes : RawShapes) (seed : ℕ) (ini : ℕ → ℕ → Arr) :
    RawParams :=
  shapes.enum.map (fun p => ini (seed * 1000003 + p.1 + 1) p.2)

/-- Interface model of the external PRNG's deterministic splitting of one seed
into `n` sub-seeds. -/
def random_split (seed : ℕ) (n : ℕ) : List ℕ :=
  (List.range n).map (fun i => seed * 1000003 + i + 1)

/-- User-supplied log-likelihood: called with the constrained-space sample
tree, `aux`, the batch, and the whole `Params` dict (Python `**params`). -/
abbrev LogLik := PTree → ℚ → List ℚ → Params → ℚ

/-- The error taxonomy of the spec, naming the constructor's assertions. -/
inductive ADVIError where
  | KeyMismatchError
  | ZeroBatchViolation
  | RankSpecificationError
deriving DecidableEq

/-- The ADVI instance. `posterior`, `unravel_fn` and
`posterior_params_bijector` are `Option` because `__init__` leaves them
undefined when `vi_type` matches no branch of its dispatch. -/
structure ADVI where
  prior : DistMap
  bijector : BijMap
  get_log_likelihood : LogLik
  vi_type : String
  rank : Option ℕ
  approx_normal_prior : DistMap
  posterior : Option RawShapes
  unravel_fn : Option (Arr → PTree)
  posterior_params_bijector : Option ParamsBij

/-- Sum over all prior leaves of `len(x.batch_shape)`, as computed by
`ADVI.check_prior_zero_batch`. -/
def prior_batch_rank_sum (prior : DistMap) : ℕ :=
  (prior.map (fun kd => kd.2.batch_shape.length)).sum

/-- `ADVI.check_prior_zero_batch`: the asserted condition. -/
def check_prior_zero_batch (prior : DistMap) : Bool :=
  prior_batch_rank_sum prior == 0

/-- Builds the instance record from the construction-time data and the
optional builder output (shapes, unravel function, params bijector). -/
def ADVI.of (prior : DistMap) (bijector : BijMap) (gll : LogLik)
    (vi_type : String) (rank : Option ℕ)
    (t : Option (RawShapes × (Arr → PTree) × ParamsBij)) : ADVI :=
  { prior := prior, bijector := bijector, get_log_likelihood := gll,
    vi_type := vi_type, rank := rank,
    approx_normal_prior := inverse_transform_dist prior bijector,
    posterior := t.map (fun x => x.1),
    unravel_fn := t.map (fun x => x.2.1),
    posterior_params_bijector := t.map (fun x => x.2.2) }

/-- `ADVI.__init__`: key-set check, zero-batch check, rank check (in source
order), then ApproxNormalPrior and the `vi_type` dispatch; an unrecognized
`vi_type` falls through the dispatch leaving the three attributes unset. -/
def ADVI.make (prior : DistMap) (bijector : BijMap) (gll : LogLik)
    (vi_type : String := "mean_field") (rank : Option ℕ := none)
    (ordered_posterior_bijectors : Option ParamsBij := none) :
    Except ADVIError ADVI :=
  if keysMatch prior bijector = false then .error .KeyMismatchError
  else if check_prior_zero_batch prior = false then .error .ZeroBatchViolation
  else if (vi_type == "low_rank") ≠ rank.isSome then
    .error .RankSpecificationError
  else if vi_type == "mean_field" then
    .ok (ADVI.of prior bijector gll vi_type rank
      (some (get_mean_field (inverse_transform_dist prior bijector)
        ordered_posterior_bijectors)))
  else if vi_type == "low_rank" then
    .ok (ADVI.of prior bijector gll vi_type rank
      (some (get_low_rank (inverse_transform_dist prior bijector) (rank.getD 0)
        ordered_posterior_bijectors)))
  else if vi_type == "full_rank" then
    .ok (ADVI.of prior bijector gll vi_type rank
      (some (get_full_rank (inverse_transform_dist prior bijector)
        ordered_posterior_bijectors)))
  else .ok (ADVI.of prior bijector gll vi_type rank none)

/-- `ADVI.init`: `{"posterior": initialize_params(self.posterior, seed,
initializer)}`; `none` when `self.posterior` is undefined (AttributeError). -/
def ADVI.init (m : ADVI) (seed : ℕ) (ini : ℕ → ℕ → Arr) : Option Params :=
  m.posterior.map (fun shapes => [("posterior", initialize_params shapes seed ini)])

/-- The inner `loss_fn_per_sample` of `ADVI.loss_fn`, with the realized
surrogate and the unravel function passed explicitly. -/
def loss_fn_per_sample (m : ADVI) (posterior : SurrogateDist) (uf : Arr → PTree)
    (params : Params) (batch : List ℚ) (aux : ℚ) (data_size : ℚ)
    (seed : ℕ) : ℚ :=
  let sample := posterior.sample seed
  let q_log_prob := posterior.log_prob sample
  let sample_tree := uf sample
  let p_log_prob := log_prob_dist m.approx_normal_prior sample_tree
  let transformed_sample_tree := transform_tree sample_tree m.bijector
  let log_likelihood :=
    m.get_log_likelihood transformed_sample_tree aux batch params
  let log_likelihood := (log_likelihood / (batch.length : ℚ)) * data_size
  (q_log_prob - p_log_prob - log_likelihood) / data_size

/-- `ADVI.loss_fn`: realize the surrogate from `params["posterior"]` through
the posterior-params bijector, evaluate the per-sample loss at each of the
`n_samples` sub-seeds split from `seed`, and return their mean; `none` when
the attributes are undefined (AttributeError). -/
def ADVI.loss_fn (m : ADVI) (params : Params) (batch : List ℚ) (aux : ℚ)
    (data_size : ℚ) (seed : ℕ) (n_samples : ℕ := 1) : Option ℚ :=
  match m.posterior_params_bijector, m.unravel_fn with
  | some ppb, some uf =>
      some ((((random_split seed n_samples).map
        (loss_fn_per_sample m
          (transform_dist_params ((lookup params "posterior").getD []) ppb)
          uf params batch aux data_size)).sum) / (n_samples : ℚ))
  | _, _ => none

/-- A call of the method `loss_fn` on an instance: `loss_fn` only reads
`self` and assigns no attribute, so a call returns its value and leaves the
instance as it was. -/
def ADVI.loss_fn_call (m : ADVI) (params : Params) (batch : List ℚ) (aux : ℚ)
    (data_size : ℚ) (seed : ℕ) (n_samples : ℕ) : Option ℚ × ADVI :=
  (m.loss_fn params batch aux data_size seed n_samples, m)

/-- Modelled from the spec (base.py is missing from src/): the `Posterior`
output object bundles the realized surrogate, the ApproxNormalPrior and the
original Bijector. -/
structure Posterior where
  posterior : SurrogateDist
  approx_normal_prior : DistMap
  bijector : BijMap

/-- `ADVI.apply`: realize the surrogate from `params["posterior"]` through the
posterior-params bijector and bundle it into a `Posterior`; `none` when the
attribute is undefined (AttributeError). -/
def ADVI.apply (m : ADVI) (params : Params) : Option Posterior :=
  m.posterior_params_bijector.map (fun ppb =>
    { posterior := transform_dist_params ((lookup params "posterior").getD []) ppb,
      approx_normal_prior := m.approx_normal_prior,
      bijector := m.bijector })

/-! Concrete instances used by the witnesses. -/

def exDist : DistObj :=
  { batch_shape := [], event_len := 1, log_prob := fun v => -(v.headD 0) ^ 2 }

def exBadDist : DistObj :=
  { batch_shape := [4], event_len := 1, log_prob := fun v => -(v.headD 0) ^ 2 }

def exBij : Bij :=
  { forward := fun v => v.map (fun x => 2 * x), inverse := fun v => v.map (fun x => x / 2),
    fwd_log_det := fun _ => 1 }

def exPrior : DistMap := [("p", exDist)]

def exBadPrior : DistMap := [("p", exBadDist)]

def exBijMap : BijMap := [("p", exBij)]

def exBadBijMap : BijMap := [("q", exBij)]

def exGll : LogLik := fun t a b _ => (t.headD ("", [])).2.headD 0 + a + b.sum

def exParams : Params := [("posterior", [[3], [2]])]

def exIni (seed shape : ℕ) : Arr := (List.range shape).map (fun i => ((seed + i : ℕ) : ℚ))

def arbitraryADVI : ADVI :=
  { prior := [], bijector := [], get_log_likelihood := fun _ _ _ _ => 0,
    vi_type := "", rank := none, approx_normal_prior := [],
    posterior := none, unravel_fn := none, posterior_params_bijector := none }

def exADVI : ADVI :=
  (ADVI.make exPrior exBijMap exGll "mean_field" none none).toOption.getD arbitraryADVI

def exANP : DistMap := inverse_transform_dist exPrior exBijMap

def exSurrogate : SurrogateDist :=
  transform_dist_params ((lookup exParams "posterior").getD []) [identity_map, positive_map]

def exADVI2 : ADVI :=
  (ADVI.make exPrior exBijMap (fun _ _ _ _ => 5) "mean_field" none none).toOption.getD
    arbitraryADVI

/-- Claim C1: each per-sample loss computed by `loss_fn` equals
`(q_log_prob - p_log_prob - log_likelihood_scaled) / data_size`, where
`log_likelihood_scaled = (log_likelihood / batch_size) * data_size` with
`batch_size` the length of the batch, `q_log_prob` the surrogate's log
density of the drawn sample, and `p_log_prob` the log density of the
unraveled sample under the ApproxNormalPrior. -/
theorem advi_per_sample_loss_formula (m : ADVI) (post : SurrogateDist)
    (uf : Arr → PTree) (params : Params) (batch : List ℚ) (aux : ℚ)
    (data_size : ℚ) (s : ℕ) :
    loss_fn_per_sample m post uf params batch aux data_size s =
      (post.log_prob (post.sample s)
        - log_prob_dist m.approx_normal_prior (uf (post.sample s))
        - m.get_log_likelihood (transform_tree (uf (post.sample s)) m.bijector)
            aux batch params / (batch.length : ℚ) * data_size) / data_size := rfl

/-- Claim C2: for `n_samples ≥ 1`, `loss_fn` returns the arithmetic mean of
the per-sample losses at the `n_samples` sub-seeds obtained by
deterministically splitting the input seed, and `n_samples` defaults to 1
when not supplied. -/
theorem advi_loss_mean_of_samples (m : ADVI) (ppb : ParamsBij)
    (uf : Arr → PTree) (hb : m.posterior_params_bijector = some ppb)
    (hu : m.unravel_fn = some uf) (params : Params) (batch : List ℚ)
    (aux : ℚ) (data_size : ℚ) (seed : ℕ) (n_samples : ℕ)
    (hn : 1 ≤ n_samples) :
    (random_split seed n_samples).length = n_samples ∧
    m.loss_fn params batch aux data_size seed n_samples =
      some ((((random_split seed n_samples).map
        (loss_fn_per_sample m
          (transform_dist_params ((lookup params "posterior").getD []) ppb)
          uf params batch aux data_size)).sum)
        / (((random_split seed n_samples).length : ℕ) : ℚ)) ∧
    m.loss_fn params batch aux data_size seed =
      m.loss_fn params batch aux data_size seed 1 := by
  refine ⟨by simp [random_split], ?_, rfl⟩
  simp [ADVI.loss_fn, hb, hu, random_split]

/-- Claim C3: `loss_fn` is a pure function of its inputs — a call leaves the
instance unchanged, and a repeated call with identical arguments on the
resulting instance returns an identical loss value. -/
theorem advi_loss_fn_pure (m : ADVI) (params : Params) (batch : List ℚ)
    (aux : ℚ) (data_size : ℚ) (seed : ℕ) (n_samples : ℕ) :
    (m.loss_fn_call params batch aux data_size seed n_samples).2 = m ∧
    ((m.loss_fn_call params batch aux data_size seed n_samples).2.loss_fn_call
        params batch aux data_size seed n_samples).1 =
      (m.loss_fn_call params batch aux data_size seed n_samples).1 :=
  ⟨rfl, rfl⟩

/-- Claim C4: construction fails with `KeyMismatchError` exactly when the
bijector's key set differs from the prior's, and with matching keys, a
zero-batch prior and a consistent rank it succeeds for every `vi_type`. -/
theorem advi_key_mismatch_iff (prior : DistMap) (bijector : BijMap)
    (gll : LogLik) (vi_type : String) (rank : Option ℕ)
    (opb : Option ParamsBij) :
    (ADVI.make prior bijector gll vi_type rank opb = .error .KeyMismatchError ↔
      keysMatch prior bijector = false) ∧
    (keysMatch prior bijector = true → prior_batch_rank_sum prior = 0 →
      ((vi_type == "low_rank") = rank.isSome) →
      ∃ m, ADVI.make prior bijector gll vi_type rank opb = .ok m) := by
  constructor
  · unfold ADVI.make check_prior_zero_batch
    split_ifs with h1 h2 h3 h4 h5 h6 <;> simp_all
  · intro hk hz hr
    unfold ADVI.make check_prior_zero_batch
    split_ifs with h1 h2 h3 h4 h5 h6 <;> simp_all

/-- Claim C5: when the key-set check passes, construction fails with
`ZeroBatchViolation` exactly when the prior leaves' summed batch ranks are
nonzero; a prior whose leaves all have zero batch rank never triggers it. -/
theorem advi_zero_batch_violation_iff (prior : DistMap) (bijector : BijMap)
    (gll : LogLik) (vi_type : String) (rank : Option ℕ)
    (opb : Option ParamsBij) :
    (keysMatch prior bijector = true →
      (ADVI.make prior bijector gll vi_type rank opb = .error .ZeroBatchViolation ↔
        prior_batch_rank_sum prior ≠ 0)) ∧
    (prior_batch_rank_sum prior = 0 →
      ADVI.make prior bijector gll vi_type rank opb ≠ .error .ZeroBatchViolation) := by
  constructor
  · intro hk
    unfold ADVI.make check_prior_zero_batch
    split_ifs with h1 h2 h3 h4 h5 h6 <;> simp_all
  · intro hz
    unfold ADVI.make check_prior_zero_batch
    split_ifs with h1 h2 h3 h4 h5 h6 <;> simp_all

/-- Claim C6: with matching keys and a zero-batch prior, construction fails
with `RankSpecificationError` exactly when `rank` being supplied does not
coincide with `vi_type` being `"low_rank"`. -/
theorem advi_rank_specification_iff (prior : DistMap) (bijector : BijMap)
    (gll : LogLik) (vi_type : String) (rank : Option ℕ)
    (opb : Option ParamsBij) (hk : keysMatch prior bijector = true)
    (hz : prior_batch_rank_sum prior = 0) :
    ADVI.make prior bijector gll vi_type rank opb = .error .RankSpecificationError ↔
      ¬ ((vi_type == "low_rank") = rank.isSome) := by
  unfold ADVI.make check_prior_zero_batch
  split_ifs with h1 h2 h3 h4 h5 h6 <;> simp_all

/-- Claim C7: the user's log-likelihood is invoked on exactly the
bijector-transformed sample tree, `aux`, the batch, and the whole Params
dict — the per-sample loss depends on the likelihood function only through
its value at those arguments. -/
theorem advi_log_likelihood_call_args (m : ADVI) (g : LogLik)
    (post : SurrogateDist) (uf : Arr → PTree) (params : Params)
    (batch : List ℚ) (aux : ℚ) (data_size : ℚ) (s : ℕ)
    (h : g (transform_tree (uf (post.sample s)) m.bijector) aux batch params =
      m.get_log_likelihood (transform_tree (uf (post.sample s)) m.bijector)
        aux batch params) :
    loss_fn_per_sample { m with get_log_likelihood := g } post uf params batch
        aux data_size s =
      loss_fn_per_sample m post uf params batch aux data_size s := by
  simp only [loss_fn_per_sample, h]

/-- Claim C8: `apply` transforms `params["posterior"]` through the same
posterior-params bijector `loss_fn` uses and bundles exactly the realized
surrogate, the ApproxNormalPrior and the original Bijector into the
`Posterior` object. -/
theorem advi_apply_bundles_surrogate (m : ADVI) (ppb : ParamsBij)
    (uf : Arr → PTree) (hb : m.posterior_params_bijector = some ppb)
    (hu : m.unravel_fn = some uf) (params : Params) (batch : List ℚ)
    (aux : ℚ) (data_size : ℚ) (seed : ℕ) (n_samples : ℕ) :
    m.apply params = some
      { posterior := transform_dist_params ((lookup params "posterior").getD []) ppb,
        approx_normal_prior := m.approx_normal_prior, bijector := m.bijector } ∧
    m.loss_fn params batch aux data_size seed n_samples =
      some ((((random_split seed n_samples).map
        (loss_fn_per_sample m
          (transform_dist_params ((lookup params "posterior").getD []) ppb)
          uf params batch aux data_size)).sum) / ((n_samples : ℕ) : ℚ)) := by
  constructor
  · simp [ADVI.apply, hb]
  · simp [ADVI.loss_fn, hb, hu]

/-- Claim C9: `init` returns a tree with the single key `"posterior"` holding
the surrogate's raw parameters, and its output depends only on the seed, the
initializer, and the raw-parameter structure fixed at construction. -/
theorem advi_init_single_key (m1 m2 : ADVI) (shapes : RawShapes)
    (h1 : m1.posterior = some shapes) (h12 : m1.posterior = m2.posterior)
    (seed : ℕ) (ini : ℕ → ℕ → Arr) :
    m1.init seed ini = some [("posterior", initialize_params shapes seed ini)] ∧
    keySet ((m1.init seed ini).getD []) = ["posterior"] ∧
    m1.init seed ini = m2.init seed ini := by
  refine ⟨?_, ?_, ?_⟩ <;> simp [ADVI.init, h1, ← h12, keySet]

/-- Claim C10: an unrecognized `vi_type` with `rank = None` passes all
constructor checks, so construction succeeds but leaves `posterior`,
`unravel_fn` and `posterior_params_bijector` undefined, and only the later
calls to `init`, `loss_fn` and `apply` fail. -/
theorem advi_unknown_vi_type_deferred (prior : DistMap) (bijector : BijMap)
    (gll : LogLik) (vi_type : String) (opb : Option ParamsBij)
    (hk : keysMatch prior bijector = true)
    (hz : prior_batch_rank_sum prior = 0)
    (hv1 : vi_type ≠ "mean_field") (hv2 : vi_type ≠ "full_rank")
    (hv3 : vi_type ≠ "low_rank")
    (params : Params) (batch : List ℚ) (aux : ℚ) (data_size : ℚ) (seed : ℕ)
    (n_samples : ℕ) (iseed : ℕ) (ini : ℕ → ℕ → Arr) :
    ∃ m, ADVI.make prior bijector gll vi_type none opb = .ok m ∧
      m.posterior = none ∧ m.unravel_fn = none ∧
      m.posterior_params_bijector = none ∧
      m.init iseed ini = none ∧
      m.loss_fn params batch aux data_size seed n_samples = none ∧
      m.apply params = none := by
  refine ⟨ADVI.of prior bijector gll vi_type none none, ?_, rfl, rfl, rfl, rfl, rfl, rfl⟩
  unfold ADVI.make check_prior_zero_batch
  split_ifs with h1 h2 h3 h4 h5 h6 <;> simp_all

/-- Witness for C2 at a concrete instance: two samples, seed 7. -/
theorem advi_loss_mean_of_samples_witness :
    (random_split 7 2).length = 2 ∧
    exADVI.loss_fn exParams [1, 2] 0 10 7 2 =
      some ((((random_split 7 2).map
        (loss_fn_per_sample exADVI exSurrogate (unravel exANP) exParams [1, 2] 0 10)).sum)
        / (((random_split 7 2).length : ℕ) : ℚ)) ∧
    exADVI.loss_fn exParams [1, 2] 0 10 7 =
      exADVI.loss_fn exParams [1, 2] 0 10 7 1 :=
  advi_loss_mean_of_samples exADVI [identity_map, positive_map] (unravel exANP)
    rfl rfl exParams [1, 2] 0 10 7 2 (by decide)

/-- Witness for C4 at a concrete mismatched pair of key sets. -/
theorem advi_key_mismatch_iff_witness :
    ADVI.make exPrior exBadBijMap exGll "mean_field" none none =
      .error .KeyMismatchError :=
  (advi_key_mismatch_iff exPrior exBadBijMap exGll "mean_field" none none).1.mpr
    (by decide)

/-- Witness for C5 at a concrete prior with batch rank 1. -/
theorem advi_zero_batch_violation_iff_witness :
    ADVI.make exBadPrior exBijMap exGll "mean_field" none none =
      .error .ZeroBatchViolation :=
  ((advi_zero_batch_violation_iff exBadPrior exBijMap exGll "mean_field" none none).1
    (by decide)).mpr (by decide)

/-- Witness for C6: `rank` supplied with `vi_type = "mean_field"`. -/
theorem advi_rank_specification_iff_witness :
    ADVI.make exPrior exBijMap exGll "mean_field" (some 2) none =
      .error .RankSpecificationError :=
  (advi_rank_specification_iff exPrior exBijMap exGll "mean_field" (some 2) none
    (by decide) (by decide)).mpr (by decide)

/-- Witness for C7 at the concrete instance and its own likelihood. -/
theorem advi_log_likelihood_call_args_witness :
    loss_fn_per_sample { exADVI with get_log_likelihood := exGll } exSurrogate
        (unravel exANP) exParams [1, 2] 0 10 7 =
      loss_fn_per_sample exADVI exSurrogate (unravel exANP) exParams [1, 2] 0 10 7 :=
  advi_log_likelihood_call_args exADVI exGll exSurrogate (unravel exANP) exParams
    [1, 2] 0 10 7 rfl

/-- Witness for C8 at the concrete mean-field instance. -/
theorem advi_apply_bundles_surrogate_witness :
    exADVI.apply exParams = some
      { posterior := exSurrogate, approx_normal_prior := exADVI.approx_normal_prior,
        bijector := exADVI.bijector } ∧
    exADVI.loss_fn exParams [1, 2] 0 10 7 3 =
      some ((((random_split 7 3).map
        (loss_fn_per_sample exADVI exSurrogate (unravel exANP) exParams [1, 2] 0 10)).sum)
        / ((3 : ℕ) : ℚ)) :=
  advi_apply_bundles_surrogate exADVI [identity_map, positive_map] (unravel exANP)
    rfl rfl exParams [1, 2] 0 10 7 3

/-- Witness for C9 at two concrete instances sharing raw-parameter shapes. -/
theorem advi_init_single_key_witness :
    exADVI.init 5 exIni = some [("posterior", initialize_params [1, 1] 5 exIni)] ∧
    keySet ((exADVI.init 5 exIni).getD []) = ["posterior"] ∧
    exADVI.init 5 exIni = exADVI2.init 5 exIni :=
  advi_init_single_key exADVI exADVI2 [1, 1] rfl rfl 5 exIni

/-- Witness for C10 at the unrecognized `vi_type = "laplace"`. -/
theorem advi_unknown_vi_type_deferred_witness :
    ∃ m, ADVI.make exPrior exBijMap exGll "laplace" none none = .ok m ∧
      m.posterior = none ∧ m.unravel_fn = none ∧
      m.posterior_params_bijector = none ∧
      m.init 5 exIni = none ∧
      m.loss_fn exParams [1, 2] 0 10 7 1 = none ∧
      m.apply exParams = none :=
  advi_unknown_vi_type_deferred exPrior exBijMap exGll "laplace" none (by decide)
    (by decide) (by decide) (by decide) (by decide) exParams [1, 2] 0 10 7 1 5 exIni
